import Mathlib

/-!
Verification of the training-loop, dataset and checkpoint logic of the
AIPI540 computer-vision notebooks (2D pneumothorax classification and
3D MRI classification).

The embedding models:
* per-batch loss/accuracy accumulation of both `train_model` functions,
* the checkpoint decision of the 3D `train_model` (best metric init -1),
* the transform chains (`data_transform`, `train_transforms`, `val_transforms`)
  at the level of step order and shape semantics,
* `DicomDataset.__getitem__` (image decode shape, label lookup, transform),
* the 3D `ImageDataset` access (fixed labels list, 3D transform shapes).

Scalar losses and accuracies are modelled over `ℚ`; sizes and counts over `ℕ`.
-/

/-- One batch as seen by a training loop body: `loss` is the scalar
batch-mean loss `criterion(outputs, labels).item()`, `size` is
`inputs.size(0)`, `corrects` is `torch.sum(preds == labels.data)`. -/
structure Batch where
  loss : ℚ
  size : ℕ
  corrects : ℕ
deriving DecidableEq

/-- 2D notebook `train_model` loss accumulation: the loop body executes both
`running_loss += loss.item()` and `running_loss += loss.item() * inputs.size(0)`
for every batch. -/
def runningLoss2D (batches : List Batch) : ℚ :=
  batches.foldl (fun acc b => acc + b.loss + b.loss * (b.size : ℚ)) 0

/-- 2D notebook `train_model` corrects accumulation:
`running_corrects += torch.sum(preds == labels.data)`. -/
def runningCorrects2D (batches : List Batch) : ℕ :=
  batches.foldl (fun acc b => acc + b.corrects) 0

/-- 2D notebook epoch loss: `epoch_loss = running_loss / len(train_dataset)`,
where the divisor is the globally captured dataset size, not a count derived
from the loader argument. -/
def epochLoss2D (batches : List Batch) (trainDatasetSize : ℕ) : ℚ :=
  runningLoss2D batches / (trainDatasetSize : ℚ)

/-- 2D notebook epoch accuracy:
`epoch_acc = running_corrects.double() / len(train_dataset)`. -/
def epochAcc2D (batches : List Batch) (trainDatasetSize : ℕ) : ℚ :=
  (runningCorrects2D batches : ℚ) / (trainDatasetSize : ℚ)

/-- 3D notebook `train_model` loss accumulation: the loop body executes
`running_loss += loss.item() * inputs.size(0)` exactly once per batch. -/
def runningLoss3D (batches : List Batch) : ℚ :=
  batches.foldl (fun acc b => acc + b.loss * (b.size : ℚ)) 0

/-- 3D notebook epoch loss:
`epoch_loss = running_loss / dataset_sizes[phase]`. -/
def epochLoss3D (batches : List Batch) (datasetSize : ℕ) : ℚ :=
  runningLoss3D batches / (datasetSize : ℚ)

/-- Total number of samples yielded by a loader over one epoch. -/
def sumSizes (batches : List Batch) : ℕ :=
  batches.foldl (fun acc b => acc + b.size) 0

/-- Modelled from the spec wording: the length-weighted mean of per-batch
losses — each batch's scalar mean loss times that batch's size, summed over
the epoch, divided by the total dataset size. -/
def lengthWeightedMeanLoss (batches : List Batch) (totalSize : ℕ) : ℚ :=
  (batches.map (fun b => b.loss * (b.size : ℚ))).sum / (totalSize : ℚ)

lemma foldl_add_eq_sum {α : Type} (f : α → ℚ) (l : List α) :
    ∀ init : ℚ, l.foldl (fun acc a => acc + f a) init = init + (l.map f).sum := by
  induction l with
  | nil => intro init; simp
  | cons a t ih =>
    intro init
    simp only [List.foldl_cons, List.map_cons, List.sum_cons, ih]
    ring

lemma foldl_add_nat_eq_sum {α : Type} (f : α → ℕ) (l : List α) :
    ∀ init : ℕ, l.foldl (fun acc a => acc + f a) init = init + (l.map f).sum := by
  induction l with
  | nil => intro init; simp
  | cons a t ih =>
    intro init
    simp only [List.foldl_cons, List.map_cons, List.sum_cons, ih]
    omega

lemma runningLoss3D_eq_sum (batches : List Batch) :
    runningLoss3D batches = (batches.map (fun b => b.loss * (b.size : ℚ))).sum := by
  simpa using foldl_add_eq_sum (fun b : Batch => b.loss * (b.size : ℚ)) batches 0

lemma runningLoss2D_eq_sum (batches : List Batch) :
    runningLoss2D batches
      = (batches.map (fun b => b.loss * (1 + (b.size : ℚ)))).sum := by
  have h := foldl_add_eq_sum (fun b : Batch => b.loss + b.loss * (b.size : ℚ)) batches 0
  have hmap : batches.map (fun b : Batch => b.loss + b.loss * (b.size : ℚ))
      = batches.map (fun b : Batch => b.loss * (1 + (b.size : ℚ))) := by
    apply List.map_congr_left
    intro b _
    ring
  unfold runningLoss2D
  simp only [zero_add] at h
  rw [← hmap]
  convert h using 2
  funext acc b
  ring

/-- C1: the 3D `train_model` epoch loss equals the length-weighted mean of
per-batch losses for every epoch (first conjunct), but the 2D `train_model`
does not: it adds every batch's loss twice (`running_loss += loss.item()`
followed by `running_loss += loss.item() * inputs.size(0)`), so on an epoch
with a single batch of size 2 and batch-mean loss 1 over a dataset of size 2
it reports 3/2 instead of the length-weighted mean 1 (second conjunct). -/
theorem epochLoss3D_weighted_but_2D_double_counts :
    (∀ (batches : List Batch) (n : ℕ),
        epochLoss3D batches n = lengthWeightedMeanLoss batches n)
    ∧ epochLoss2D [⟨1, 2, 0⟩] 2 ≠ lengthWeightedMeanLoss [⟨1, 2, 0⟩] 2 := by
  constructor
  · intro batches n
    unfold epochLoss3D lengthWeightedMeanLoss
    rw [runningLoss3D_eq_sum]
  · unfold epochLoss2D lengthWeightedMeanLoss runningLoss2D
    norm_num

/-- Best-metric update of the 3D `train_model` checkpoint block: the code
executes `if epoch_acc > best_metric: best_metric = epoch_acc`. -/
def bestStep (best acc : ℚ) : ℚ :=
  if best < acc then acc else best

/-- Per-epoch checkpoint-write flags of the 3D `train_model`, threading the
running `best_metric` through the epochs: a write happens exactly when
`epoch_acc > best_metric`, and `best_metric` is then set to `epoch_acc`. -/
def checkpointFlags (best : ℚ) : List ℚ → List Bool
  | [] => []
  | a :: rest => decide (best < a) :: checkpointFlags (bestStep best a) rest

/-- Checkpoint-write flags of a whole run: `best_metric = -1` before the
first epoch. -/
def writeFlags (accs : List ℚ) : List Bool :=
  checkpointFlags (-1) accs

/-- Trace of `best_metric` values after each epoch's validation phase. -/
def bestTrace (best : ℚ) : List ℚ → List ℚ
  | [] => []
  | a :: rest => bestStep best a :: bestTrace (bestStep best a) rest

/-- Modelled from the spec wording of C2: does accuracy `a` strictly exceed
every accuracy recorded for a previous epoch? -/
def exceedsAll (prev : List ℚ) (a : ℚ) : Bool :=
  prev.all (fun b => decide (b < a))

/-- Modelled from the spec wording of C2: flag epoch `k` exactly when its
accuracy strictly exceeds every previous epoch's accuracy. -/
def specFlagsAux (prev : List ℚ) : List ℚ → List Bool
  | [] => []
  | a :: rest => exceedsAll prev a :: specFlagsAux (prev ++ [a]) rest

/-- Spec-side write flags for a whole run (no previous epochs at the start). -/
def specWriteFlags (accs : List ℚ) : List Bool :=
  specFlagsAux [] accs

lemma bestStep_eq_max (best acc : ℚ) : bestStep best acc = max best acc := by
  unfold bestStep
  rcases lt_or_ge best acc with h | h
  · rw [if_pos h, max_eq_right (le_of_lt h)]
  · rw [if_neg (not_lt.mpr h), max_eq_left h]

lemma checkpointFlags_eq_specFlagsAux (accs : List ℚ) :
    ∀ (prev : List ℚ) (best : ℚ),
      (∀ b ∈ prev, b ≤ best) → (best = -1 ∨ best ∈ prev) →
      (∀ a ∈ accs, 0 ≤ a) →
      checkpointFlags best accs = specFlagsAux prev accs := by
  induction accs with
  | nil => intro prev best _ _ _; rfl
  | cons a rest ih =>
    intro prev best hub hmem hnn
    have ha : (0 : ℚ) ≤ a := hnn a (List.mem_cons_self a rest)
    have hiff : best < a ↔ ∀ b ∈ prev, b < a := by
      constructor
      · intro hlt b hb
        exact lt_of_le_of_lt (hub b hb) hlt
      · intro hall
        rcases hmem with h1 | h2
        · rw [h1]; linarith
        · exact hall best h2
    have hhead : decide (best < a) = exceedsAll prev a := by
      rw [Bool.eq_iff_iff]
      simp only [decide_eq_true_eq, exceedsAll, List.all_eq_true, decide_eq_true_eq]
      exact hiff
    have htail : checkpointFlags (bestStep best a) rest
        = specFlagsAux (prev ++ [a]) rest := by
      apply ih
      · intro b hb
        rw [bestStep_eq_max]
        rcases List.mem_append.mp hb with hb1 | hb2
        · exact le_trans (hub b hb1) (le_max_left best a)
        · rw [List.mem_singleton] at hb2
          rw [hb2]
          exact le_max_right best a
      · rw [bestStep_eq_max]
        rcases max_choice best a with hm | hm
        · rw [hm]
          rcases hmem with h1 | h2
          · exact Or.inl h1
          · exact Or.inr (List.mem_append.mpr (Or.inl h2))
        · rw [hm]
          exact Or.inr (List.mem_append.mpr (Or.inr (List.mem_singleton.mpr rfl)))
      · intro x hx
        exact hnn x (List.mem_cons_of_mem a hx)
    simp only [checkpointFlags, specFlagsAux, hhead, htail]

/-- C2 counterexample: for validation accuracies [0.5, 0.7, 0.6] the 3D
training loop writes a checkpoint after epoch 1 (0.5 exceeds the initial
best metric -1) and after epoch 2 (0.7 exceeds 0.5) — two writes, so the
claimed count of exactly one write is false. -/
theorem writeFlags_scenario_two_writes :
    writeFlags [1/2, 7/10, 3/5] = [true, true, false]
    ∧ ¬ (writeFlags [1/2, 7/10, 3/5]).count true = 1 := by
  constructor
  · norm_num [writeFlags, checkpointFlags, bestStep]
  · norm_num [writeFlags, checkpointFlags, bestStep, List.count_cons]

/-- C2 amended: provided every validation accuracy is nonnegative, the 3D
training loop writes a checkpoint after an epoch if and only if that epoch's
validation accuracy strictly exceeds every previous epoch's validation
accuracy (vacuously true for the first epoch, whose accuracy always beats
the initial best metric of -1); in particular for accuracies [0.5, 0.7, 0.6]
exactly two writes occur, after epochs 1 and 2. -/
theorem writeFlags_iff_exceeds_all_previous (accs : List ℚ)
    (hnn : ∀ a ∈ accs, 0 ≤ a) :
    writeFlags accs = specWriteFlags accs
    ∧ writeFlags [1/2, 7/10, 3/5] = [true, true, false] := by
  constructor
  · exact checkpointFlags_eq_specFlagsAux accs [] (-1)
      (by intro b hb; cases hb) (Or.inl rfl) hnn
  · norm_num [writeFlags, checkpointFlags, bestStep]

/-- C2 amended witness at the scenario accuracies [0.5, 0.7, 0.6]. -/
theorem writeFlags_iff_exceeds_all_previous_witness :
    (∀ a ∈ [(1:ℚ)/2, 7/10, 3/5], 0 ≤ a)
    ∧ (writeFlags [(1:ℚ)/2, 7/10, 3/5] = specWriteFlags [(1:ℚ)/2, 7/10, 3/5]
       ∧ writeFlags [1/2, 7/10, 3/5] = [true, true, false]) := by
  have h : ∀ a ∈ [(1:ℚ)/2, 7/10, 3/5], 0 ≤ a := by
    intro a ha
    simp only [List.mem_cons, List.not_mem_nil, or_false] at ha
    rcases ha with h | h | h <;> rw [h] <;> norm_num
  exact ⟨h, writeFlags_iff_exceeds_all_previous [(1:ℚ)/2, 7/10, 3/5] h⟩

/-- C8: across a 3D training run the best-seen validation metric is the
running maximum: each validation-phase update sets it to the maximum of its
previous value and the epoch's accuracy (first conjunct), and along the trace
of per-epoch best values it is never decreased (second conjunct, a chain of
inequalities starting from the value before the first epoch). -/
theorem bestMetric_is_running_max :
    (∀ best acc : ℚ, bestStep best acc = max best acc)
    ∧ ∀ (best : ℚ) (accs : List ℚ),
        List.Chain (fun x y => x ≤ y) best (bestTrace best accs) := by
  constructor
  · exact bestStep_eq_max
  · intro best accs
    induction accs generalizing best with
    | nil => exact List.Chain.nil
    | cons a rest ih =>
      refine List.Chain.cons ?_ (ih (bestStep best a))
      rw [bestStep_eq_max]
      exact le_max_left best a

/-- C9: since `best_metric` is initialized to -1 before the first epoch, the
first epoch's validation phase always performs a checkpoint write whenever
its accuracy is nonnegative (in particular for every accuracy in [0,1]). -/
theorem first_epoch_always_writes (a : ℚ) (rest : List ℚ) (ha : 0 ≤ a) :
    (writeFlags (a :: rest)).head? = some true := by
  unfold writeFlags checkpointFlags
  have h : (-1 : ℚ) < a := by linarith
  simp [h]

/-- C9 witness: with first-epoch accuracy 1/2 the write occurs. -/
theorem first_epoch_always_writes_witness :
    (0 : ℚ) ≤ 1/2 ∧ (writeFlags [1/2]).head? = some true :=
  ⟨by norm_num, first_epoch_always_writes (1/2) [] (by norm_num)⟩

/-- What `torch.save` is handed by the 3D checkpoint block. The source passes
`model.state_dict` — the bound method object itself — rather than the result
of calling it, `model.state_dict()`, which would be the mapping of parameter
names to current values. -/
inductive SavedValue (P : Type) where
  | stateDictMethod : SavedValue P
  | stateDictSnapshot : P → SavedValue P
deriving DecidableEq

/-- A checkpoint write: destination path and the value handed to
`torch.save`. -/
structure CheckpointWrite (P : Type) where
  path : String
  value : SavedValue P
deriving DecidableEq

/-- The validation-phase checkpoint block of the 3D `train_model`:
`if epoch_acc > best_metric: best_metric = epoch_acc;
torch.save(model.state_dict, 'models/3d_classification_model.pth')`.
Returns the new best metric and the write performed, if any. -/
def valPhaseCheckpoint (P : Type) (best acc : ℚ) :
    ℚ × Option (CheckpointWrite P) :=
  if best < acc then
    (acc, some ⟨"models/3d_classification_model.pth", SavedValue.stateDictMethod⟩)
  else
    (best, none)

/-- C3: on an improving epoch (here the first epoch, accuracy 1/2 against the
initial best metric -1) the 3D checkpoint block does update the best-seen
value to the new accuracy and does write to the fixed output path, but the
value it hands to `torch.save` is the bound method `model.state_dict`
(the call parentheses are missing in the source), which is not the parameter
snapshot for any assignment of parameter values. -/
theorem checkpoint_saves_method_not_snapshot :
    valPhaseCheckpoint (List (String × ℚ)) (-1) (1/2)
      = (1/2, some ⟨"models/3d_classification_model.pth",
                    SavedValue.stateDictMethod⟩)
    ∧ ∀ params : List (String × ℚ),
        (SavedValue.stateDictMethod : SavedValue (List (String × ℚ)))
          ≠ SavedValue.stateDictSnapshot params := by
  constructor
  · unfold valPhaseCheckpoint
    norm_num
  · intro params h
    cases h

/-- The two phases of each 3D training epoch: `for phase in ['train','val']`. -/
inductive Phase where
  | train : Phase
  | val : Phase
deriving DecidableEq

/-- Gradient tracking of the 3D loop:
`with torch.set_grad_enabled(phase == 'train')`. -/
def gradEnabled (phase : Phase) : Bool :=
  decide (phase = Phase.train)

/-- Effect of one 3D loop body iteration on the model parameters: the
parameter update (`loss.backward(); optimizer.step()`) runs under
`if phase == 'train'`; otherwise the parameters are left as they are. -/
def batchParamStep {P : Type} (update : P → Batch → P) (phase : Phase)
    (params : P) (b : Batch) : P :=
  if phase = Phase.train then update params b else params

/-- Effect of one whole phase (all batches of one dataloader pass) on the
model parameters. -/
def runPhaseParams {P : Type} (update : P → Batch → P) (phase : Phase)
    (params : P) (batches : List Batch) : P :=
  batches.foldl (batchParamStep update phase) params

lemma runPhaseParams_val_id {P : Type} (update : P → Batch → P)
    (batches : List Batch) :
    ∀ params : P, runPhaseParams update Phase.val params batches = params := by
  induction batches with
  | nil => intro params; rfl
  | cons b rest ih =>
    intro params
    have hstep : batchParamStep update Phase.val params b = params := by
      unfold batchParamStep
      simp
    calc runPhaseParams update Phase.val params (b :: rest)
        = runPhaseParams update Phase.val
            (batchParamStep update Phase.val params b) rest := rfl
      _ = params := by rw [hstep]; exact ih params

/-- C7: the Evaluating (validation) phase of the 3D training loop leaves the
model parameters unchanged, whatever the optimizer's update function and
batches are; gradient tracking is enabled in the Training phase only, and
the per-batch parameter update fires in the Training phase only. -/
theorem val_phase_preserves_params :
    (∀ (P : Type) (update : P → Batch → P) (params : P) (batches : List Batch),
        runPhaseParams update Phase.val params batches = params)
    ∧ (∀ (P : Type) (update : P → Batch → P) (params : P) (b : Batch),
        batchParamStep update Phase.val params b = params)
    ∧ gradEnabled Phase.val = false ∧ gradEnabled Phase.train = true := by
  refine ⟨?_, ?_, rfl, rfl⟩
  · intro P update params batches
    exact runPhaseParams_val_id update batches params
  · intro P update params b
    unfold batchParamStep
    simp

lemma runningCorrects2D_eq_sum (batches : List Batch) :
    runningCorrects2D batches = (batches.map (fun b => b.corrects)).sum := by
  simpa using foldl_add_nat_eq_sum (fun b : Batch => b.corrects) batches 0

/-- C10 counterexample: a loader that iterates exactly the samples of
`train_dataset` (one batch of size 2 over a dataset of size 2), yet the
reported epoch loss is not the per-sample average loss: with batch-mean loss
1 the loop reports 3/2, because loss is accumulated twice per batch. -/
theorem reported_loss_wrong_even_for_matching_loader :
    sumSizes [⟨1, 2, 1⟩] = 2
    ∧ epochLoss2D [⟨1, 2, 1⟩] 2 ≠ lengthWeightedMeanLoss [⟨1, 2, 1⟩] 2 := by
  constructor
  · rfl
  · unfold epochLoss2D lengthWeightedMeanLoss runningLoss2D
    norm_num

/-- C10 amended: the 2D `train_model` divides both accumulators by the
globally captured `len(train_dataset)`, not by a count taken from its loader
argument. When the loader's batches cover exactly `len(train_dataset)`
samples, the reported accuracy equals the true per-sample accuracy over the
loader; the reported loss however equals the sum of each batch's mean loss
times (1 + batch size) divided by the dataset size — due to the duplicated
accumulation it is not the per-sample average even for a matching loader. -/
theorem reported_averages_vs_loader (batches : List Batch) (n : ℕ)
    (h : sumSizes batches = n) :
    epochAcc2D batches n
      = (runningCorrects2D batches : ℚ) / (sumSizes batches : ℚ)
    ∧ epochLoss2D batches n
      = (batches.map (fun b => b.loss * (1 + (b.size : ℚ)))).sum / (n : ℚ) := by
  constructor
  · unfold epochAcc2D
    rw [h]
  · unfold epochLoss2D
    rw [runningLoss2D_eq_sum]

/-- C10 amended witness at a loader with one batch of size 2 over a dataset
of size 2. -/
theorem reported_averages_vs_loader_witness :
    sumSizes [⟨1, 2, 1⟩] = 2
    ∧ (epochAcc2D [⟨1, 2, 1⟩] 2
        = (runningCorrects2D [⟨1, 2, 1⟩] : ℚ) / (sumSizes [⟨1, 2, 1⟩] : ℚ)
      ∧ epochLoss2D [⟨1, 2, 1⟩] 2
        = (([⟨1, 2, 1⟩] : List Batch).map
            (fun b => b.loss * (1 + (b.size : ℚ)))).sum / ((2 : ℕ) : ℚ)) :=
  ⟨rfl, reported_averages_vs_loader [⟨1, 2, 1⟩] 2 rfl⟩

/-- The preprocessing transforms appearing in the two notebooks' compose
chains. -/
inductive TStep where
  | scaleIntensity : TStep
  | addChannel : TStep
  | resize : TStep
  | randRotate90 : TStep
  | ensureType : TStep
  | toTensor : TStep
  | normalize : TStep
deriving DecidableEq

/-- 3D notebook: `train_transforms = Compose([ScaleIntensity(), AddChannel(),
Resize((96, 96, 96)), RandRotate90(), EnsureType()])`. -/
def train_transforms : List TStep :=
  [TStep.scaleIntensity, TStep.addChannel, TStep.resize,
   TStep.randRotate90, TStep.ensureType]

/-- 3D notebook: `val_transforms = Compose([ScaleIntensity(), AddChannel(),
Resize((96, 96, 96)), EnsureType()])`. -/
def val_transforms : List TStep :=
  [TStep.scaleIntensity, TStep.addChannel, TStep.resize, TStep.ensureType]

/-- 2D notebook: `data_transform = Compose([transforms.Resize(224),
transforms.ToTensor(), transforms.Normalize(mean=[0.5], std=[0.5])])`. -/
def data_transform : List TStep :=
  [TStep.resize, TStep.toTensor, TStep.normalize]

/-- The semantic roles the spec's ordering claim speaks about. -/
inductive StepKind where
  | intensity : StepKind
  | channelInsert : StepKind
  | spatialResize : StepKind
  | rotate90 : StepKind
  | convert : StepKind
deriving DecidableEq

/-- Role of each source transform: `ScaleIntensity` rescales intensities,
`AddChannel` inserts the channel dimension, `Resize` resizes spatially,
`RandRotate90` rotates by a 90-degree multiple, `EnsureType` and `ToTensor`
convert to the downstream tensor representation (`ToTensor` also rescales,
but its place in the chain is the conversion step), `Normalize` standardizes
intensities. -/
def stepKind : TStep → StepKind
  | TStep.scaleIntensity => StepKind.intensity
  | TStep.addChannel => StepKind.channelInsert
  | TStep.resize => StepKind.spatialResize
  | TStep.randRotate90 => StepKind.rotate90
  | TStep.ensureType => StepKind.convert
  | TStep.toTensor => StepKind.convert
  | TStep.normalize => StepKind.intensity

/-- Modelled from the spec wording of C4: intensity scaling, then channel
insertion, then spatial resize, then (training only) a random 90-degree
rotation, then conversion. -/
def specStepOrder (training : Bool) : List StepKind :=
  [StepKind.intensity, StepKind.channelInsert, StepKind.spatialResize]
    ++ (if training then [StepKind.rotate90] else [])
    ++ [StepKind.convert]

/-- C4 counterexample: the 2D chain `data_transform` does not follow the
claimed ordering in either its training or its evaluation form — its first
step is the spatial resize, not intensity scaling. -/
theorem data_transform_order_differs :
    data_transform.map stepKind ≠ specStepOrder true
    ∧ data_transform.map stepKind ≠ specStepOrder false
    ∧ (data_transform.map stepKind).head? = some StepKind.spatialResize := by
  refine ⟨?_, ?_, rfl⟩ <;> decide

/-- C4 amended: the 3D pipelines follow the claimed ordering — intensity
scaling, channel insertion, spatial resize, a random 90-degree rotation in
the training chain only, then conversion — while the 2D chain instead
applies the spatial resize first, then tensor conversion, then intensity
standardization, with no channel-insertion or rotation step of its own. -/
theorem transform_chain_order :
    train_transforms.map stepKind = specStepOrder true
    ∧ val_transforms.map stepKind = specStepOrder false
    ∧ data_transform.map stepKind
        = [StepKind.spatialResize, StepKind.convert, StepKind.intensity] := by
  refine ⟨?_, ?_, ?_⟩ <;> decide

/-- 2D notebook: `classes = ['No Pneumothorax','Pneumothorax']`. -/
def classes : List String := ["No Pneumothorax", "Pneumothorax"]

/-- 2D notebook: `idx_to_class = {i:j for i,j in enumerate(classes)}`. -/
def idx_to_class : List (ℕ × String) := classes.enum

/-- 2D notebook: `class_to_idx = {v:k for k,v in idx_to_class.items()}`,
looking up a class-label string's numeric index; `none` models a `KeyError`
on a label outside the mapping. -/
def class_to_idx (label : String) : Option ℕ :=
  (idx_to_class.find? (fun p => p.snd == label)).map Prod.fst

lemma class_to_idx_lt (label : String) (lab : ℕ)
    (h : class_to_idx label = some lab) : lab < 2 := by
  unfold class_to_idx at h
  rcases Option.map_eq_some'.mp h with ⟨pair, hfind, hfst⟩
  have hmem : pair ∈ idx_to_class := List.mem_of_find?_eq_some hfind
  have hall : ∀ q ∈ idx_to_class, q.fst < 2 := by decide
  rw [← hfst]
  exact hall pair hmem

/-- Shape semantics of `transforms.Resize(224)` on a (height, width) image:
torchvision resizes the shorter side to the target, scaling the longer side
to keep the aspect ratio. -/
def resizeShorterSide (target : ℕ) : List ℕ → List ℕ
  | [h, w] =>
    if h ≤ w then [target, target * w / h] else [target * h / w, target]
  | s => s

/-- Shape semantics of `transforms.ToTensor()` on a grayscale image: the
output tensor gains a leading channel dimension of size 1. -/
def toTensorShape (s : List ℕ) : List ℕ := 1 :: s

/-- `transforms.Normalize` rescales values, not the shape. -/
def normalizeShape (s : List ℕ) : List ℕ := s

/-- Shape semantics of the 2D `data_transform` chain:
`Resize(224)` then `ToTensor()` then `Normalize(mean=[0.5], std=[0.5])`. -/
def data_transformShape (s : List ℕ) : List ℕ :=
  normalizeShape (toTensorShape (resizeShorterSide 224 s))

/-- One row of `labels.csv` as used by `DicomDataset.__getitem__`: the file
column determines the decoded DICOM pixel array, modelled by its height and
width, and the second column carries the class-label string. -/
structure DicomRow where
  height : ℕ
  width : ℕ
  label : String
deriving DecidableEq

/-- Failure modes of a `DicomDataset` access. -/
inductive AccessError where
  | lookupError : String → AccessError
  | indexError : AccessError
deriving DecidableEq

/-- `DicomDataset.__getitem__`: decode the DICOM pixel array for row `idx`
(modelled by its shape), look the row's label string up in the class
mapping — a missing key aborts the access with a lookup error — and
otherwise apply `data_transform` and return the (image, integer label)
pair. -/
def dicomGetitem (rows : List DicomRow) (idx : ℕ) :
    Except AccessError (List ℕ × ℕ) :=
  match rows.get? idx with
  | none => Except.error AccessError.indexError
  | some row =>
    match class_to_idx row.label with
    | none => Except.error (AccessError.lookupError row.label)
    | some lab => Except.ok (data_transformShape [row.height, row.width], lab)

/-- `ScaleIntensity` rescales values, not the shape. -/
def scaleIntensityShape (s : List ℕ) : List ℕ := s

/-- `AddChannel` prepends a channel dimension of size 1. -/
def addChannelShape (s : List ℕ) : List ℕ := 1 :: s

/-- `Resize((96, 96, 96))` maps the spatial dimensions of a channel-first
tensor to the target shape. -/
def resizeShape3D (target : List ℕ) : List ℕ → List ℕ
  | c :: _ => c :: target
  | [] => target

/-- Rotation plane choices of `RandRotate90` on a 3D volume. -/
inductive RotPlane where
  | hw : RotPlane
  | hd : RotPlane
  | wd : RotPlane
deriving DecidableEq

/-- Shape effect of `RandRotate90`: when the random draw fires it with an
odd number of quarter turns it swaps the two spatial dimensions of the
chosen plane; otherwise the shape is unchanged. -/
def randRotate90Shape (applied : Bool) (plane : RotPlane) (k : ℕ) :
    List ℕ → List ℕ
  | [c, h, w, d] =>
    if applied && decide (k % 2 = 1) then
      match plane with
      | RotPlane.hw => [c, w, h, d]
      | RotPlane.hd => [c, d, w, h]
      | RotPlane.wd => [c, h, d, w]
    else [c, h, w, d]
  | s => s

/-- `EnsureType` converts the container type, not the shape. -/
def ensureTypeShape (s : List ℕ) : List ℕ := s

/-- Shape semantics of the 3D `train_transforms` chain on a raw volume,
parametrized by the random choices of `RandRotate90`. -/
def train_transformsShape (applied : Bool) (plane : RotPlane) (k : ℕ)
    (s : List ℕ) : List ℕ :=
  ensureTypeShape (randRotate90Shape applied plane k
    (resizeShape3D [96, 96, 96] (addChannelShape (scaleIntensityShape s))))

/-- 3D notebook:
`labels = np.array([0,0,0,1,0,0,0,1,1,0,0,0,1,0,1,0,1,0,1,0])`. -/
def labels3d : List ℕ :=
  [0, 0, 0, 1, 0, 0, 0, 1, 1, 0, 0, 0, 1, 0, 1, 0, 1, 0, 1, 0]

/-- 3D notebook training labels: `labels[:10]`. -/
def train_ds_labels : List ℕ := labels3d.take 10

/-- 3D `ImageDataset` access: decode the volume at index `i` (modelled by
its raw shape), apply the training transform chain and pair the result with
the label at the same index. -/
def imageDatasetGetitem (rawShapes : List (List ℕ)) (lbls : List ℕ)
    (applied : Bool) (plane : RotPlane) (k : ℕ) (i : ℕ) :
    Option (List ℕ × ℕ) :=
  match rawShapes.get? i, lbls.get? i with
  | some s, some l => some (train_transformsShape applied plane k s, l)
  | _, _ => none

lemma randRotate90Shape_cube (applied : Bool) (plane : RotPlane) (k : ℕ) :
    randRotate90Shape applied plane k [1, 96, 96, 96] = [1, 96, 96, 96] := by
  cases plane <;> by_cases h : (applied && decide (k % 2 = 1)) = true <;>
    simp [randRotate90Shape, h]

lemma train_transformsShape_fixed (applied : Bool) (plane : RotPlane)
    (k h w d : ℕ) :
    train_transformsShape applied plane k [h, w, d] = [1, 96, 96, 96] := by
  unfold train_transformsShape ensureTypeShape scaleIntensityShape
    addChannelShape resizeShape3D
  exact randRotate90Shape_cube applied plane k

/-- C5: every valid access of the 3D training dataset yields a tensor of the
fixed target shape (channel 1, spatial 96 x 96 x 96, for every raw volume
shape and every random rotation choice) and a label below the class count 2;
every valid access of the 2D `DicomDataset` whose label string is in the
class mapping and whose decoded image is square and nonempty yields a tensor
of shape (1, 224, 224) and a label below the class count 2. -/
theorem dataset_access_shape_and_label :
    (∀ (rawShapes : List (List ℕ)) (i h w d l : ℕ) (applied : Bool)
        (plane : RotPlane) (k : ℕ),
        rawShapes.get? i = some [h, w, d] →
        train_ds_labels.get? i = some l →
        imageDatasetGetitem rawShapes train_ds_labels applied plane k i
          = some ([1, 96, 96, 96], l) ∧ l < 2)
    ∧ (∀ (rows : List DicomRow) (idx : ℕ) (row : DicomRow) (lab : ℕ),
        rows.get? idx = some row →
        class_to_idx row.label = some lab →
        row.height = row.width → 0 < row.height →
        dicomGetitem rows idx = Except.ok ([1, 224, 224], lab) ∧ lab < 2) := by
  constructor
  · intro rawShapes i h w d l applied plane k hshape hlabel
    constructor
    · simp only [imageDatasetGetitem, hshape, hlabel, train_transformsShape_fixed]
    · have hmem : l ∈ train_ds_labels := List.get?_mem hlabel
      have hmem2 : l ∈ labels3d := List.take_subset 10 labels3d hmem
      have hall : ∀ x ∈ labels3d, x < 2 := by decide
      exact hall l hmem2
  · intro rows idx row lab hrow hlab hsq hpos
    refine ⟨?_, class_to_idx_lt row.label lab hlab⟩
    simp only [dicomGetitem, hrow, hlab]
    have hshape : data_transformShape [row.height, row.width]
        = [1, 224, 224] := by
      rw [← hsq]
      simp only [data_transformShape, normalizeShape, toTensorShape,
        resizeShorterSide, le_refl, if_true]
      rw [Nat.mul_div_assoc 224 (dvd_refl row.height), Nat.div_self hpos,
        mul_one]
    rw [hshape]

/-- C5 witness: a 3D access at index 0 on a 64 x 64 x 64 raw volume with the
rotation fired in the height-width plane, and a 2D access on a 1024 x 1024
image labeled Pneumothorax. -/
theorem dataset_access_shape_and_label_witness :
    (imageDatasetGetitem [[64, 64, 64]] train_ds_labels true RotPlane.hw 1 0
        = some ([1, 96, 96, 96], 0) ∧ 0 < 2)
    ∧ (dicomGetitem [⟨1024, 1024, "Pneumothorax"⟩] 0
        = Except.ok ([1, 224, 224], 1) ∧ 1 < 2) := by
  constructor
  · exact dataset_access_shape_and_label.1 [[64, 64, 64]] 0 64 64 64 0 true
      RotPlane.hw 1 rfl rfl
  · exact dataset_access_shape_and_label.2 [⟨1024, 1024, "Pneumothorax"⟩] 0
      ⟨1024, 1024, "Pneumothorax"⟩ 1 rfl rfl rfl (by norm_num)

/-- C6: a dataset access whose row carries a class-label string outside the
class mapping aborts with a lookup error naming that label and returns no
sample. -/
theorem missing_label_aborts_access (rows : List DicomRow) (idx : ℕ)
    (row : DicomRow) (hrow : rows.get? idx = some row)
    (hmiss : class_to_idx row.label = none) :
    dicomGetitem rows idx
      = Except.error (AccessError.lookupError row.label) := by
  simp only [dicomGetitem, hrow, hmiss]

/-- C6 witness: the access fails on a row labeled with a string outside the
mapping. -/
theorem missing_label_aborts_access_witness :
    ([⟨1024, 1024, "Cat"⟩] : List DicomRow).get? 0 = some ⟨1024, 1024, "Cat"⟩
    ∧ class_to_idx "Cat" = none
    ∧ dicomGetitem [⟨1024, 1024, "Cat"⟩] 0
        = Except.error (AccessError.lookupError "Cat") :=
  ⟨rfl, rfl, missing_label_aborts_access [⟨1024, 1024, "Cat"⟩] 0
    ⟨1024, 1024, "Cat"⟩ rfl rfl⟩
